import Mathlib

/-!
Verification of the CDDP solver context (`src/cddp_core/cddp_core.cpp`)
against its natural-language specification.

The C++ source is shallowly embedded: `double` scalars become `ℚ`
(augmented with a positive-infinity marker `Flt.inf` where the code
stores `std::numeric_limits<double>::infinity()`), `Eigen::VectorXd`
becomes `List ℚ`, `std::vector` becomes `List`, `std::map` becomes an
association list with unique keys, exceptions become `Except`, and the
process-wide external solver registry becomes an explicit argument.
-/

namespace cddp

/-- An `Eigen::VectorXd`: a finite vector of rationals. -/
abbrev Vec := List ℚ

/-- A floating-point scalar as used by the solver context: either a finite
value or positive infinity (`std::numeric_limits<double>::infinity()`),
the only non-finite value the embedded code ever stores. -/
inductive Flt where
  | fin (q : ℚ)
  | inf
deriving DecidableEq, Repr

/-- Ordering on `Flt`: finite values compare as rationals and `inf` is
greater than every finite value. -/
def Flt.le : Flt → Flt → Bool
  | .fin a, .fin b => decide (a ≤ b)
  | .inf, .fin _ => false
  | _, .inf => true

/-- `options.line_search` (`LineSearchOptions` in `options.hpp`). -/
structure LineSearchOptions where
  max_iterations : Nat
  initial_step_size : ℚ
  min_step_size : ℚ
  step_reduction_factor : ℚ
deriving DecidableEq, Repr

/-- `options.regularization` (`RegularizationOptions` in `options.hpp`). -/
structure RegularizationOptions where
  initial_value : ℚ
  update_factor : ℚ
  max_value : ℚ
  min_value : ℚ
deriving DecidableEq, Repr

/-- The fields of `CDDPOptions` read by the embedded code
(`verbose` and the solver-specific option blocks only affect printing
and the out-of-scope solver strategies). -/
structure CDDPOptions where
  tolerance : ℚ
  warm_start : Bool
  line_search : LineSearchOptions
  regularization : RegularizationOptions
deriving DecidableEq, Repr

/-- A `DynamicalSystem` as seen by the solver context: only its
dimensions are consulted by the embedded code (`getStateDim`,
`getControlDim`); the dynamics map itself is exercised only by the
out-of-scope solver strategies. -/
structure DynamicalSystem where
  state_dim : Nat
  control_dim : Nat
deriving DecidableEq, Repr

/-- An `Objective` as seen by the solver context: the embedded code only
stores it and forwards the reference state to it. -/
structure Objective where
  reference_state : Vec
deriving DecidableEq, Repr

/-- A `Constraint` as seen by the solver context: only `getDualDim()` is
consulted by the embedded code. -/
structure Constraint where
  dual_dim : Nat
deriving DecidableEq, Repr

/-- Association map with unique keys, modelling `std::map<std::string, V>`
(the key order of `std::map` is irrelevant to every property proved here). -/
abbrev SMap (α : Type) := List (String × α)

/-- `m[k] = v` on a `std::map`: replace the binding if the key is present,
append it otherwise. -/
def mapInsert {α : Type} : SMap α → String → α → SMap α
  | [], k, v => [(k, v)]
  | (k', v') :: rest, k, v =>
    if k' = k then (k, v) :: rest else (k', v') :: mapInsert rest k v

/-- `m.find(k)` on a `std::map`, as an `Option`. -/
def mapFind {α : Type} : SMap α → String → Option α
  | [], _ => none
  | (k', v') :: rest, k => if k' = k then some v' else mapFind rest k

/-- `m.erase(it)` after a successful `find`: drop the binding of `k`. -/
def mapErase {α : Type} : SMap α → String → SMap α
  | [], _ => []
  | (k', v') :: rest, k => if k' = k then rest else (k', v') :: mapErase rest k

/-- The built-in solver algorithms, plus abstract externally registered
algorithms distinguished by the tag of the factory that produced them. -/
inductive Solver where
  | clddp
  | asddp
  | logddp
  | ipddp
  | msipddp
  | alddp
  | external (tag : Nat)
deriving DecidableEq, Repr

/-- The process-wide external solver registry
(`CDDP::external_solver_registry_`), made an explicit value. A factory
`std::function<std::unique_ptr<ISolverAlgorithm>()>` is abstracted by a
`Nat` tag; invoking the factory yields `Solver.external tag`. -/
abbrev SolverRegistry := SMap Nat

/-- `CDDP::registerSolver`: `external_solver_registry_[name] = factory`. -/
def registerSolver (reg : SolverRegistry) (solver_name : String)
    (factory : Nat) : SolverRegistry :=
  mapInsert reg solver_name factory

/-- `CDDP::isSolverRegistered`: membership in the external registry only. -/
def isSolverRegistered (reg : SolverRegistry) (solver_name : String) : Bool :=
  (mapFind reg solver_name).isSome

/-- `CDDP::getRegisteredSolvers`: the externally registered names. -/
def getRegisteredSolvers (reg : SolverRegistry) : List String :=
  reg.map (fun p => p.1)

/-- The exceptions thrown by the embedded code
(`std::runtime_error` with the corresponding messages). -/
inductive CDDPError where
  | nullConstraint
  | missingSystem
  | missingObjective
deriving DecidableEq, Repr

/-- The state of a `cddp::CDDP` solver-context object. Field names follow
the C++ members. `horizon_` is an `int` in C++, used only at non-negative
values (it sizes trajectories via `static_cast<size_t>(horizon_ + 1)`),
so it is modelled as `ℕ`; `total_dual_dim_` is an `int` and is modelled
as `ℤ`. -/
structure CDDPState where
  initial_state_ : Vec
  reference_state_ : Vec
  horizon_ : Nat
  timestep_ : ℚ
  system_ : Option DynamicalSystem
  objective_ : Option Objective
  options_ : CDDPOptions
  initialized_ : Bool
  X_ : List Vec
  U_ : List Vec
  cost_ : Flt
  merit_function_ : Flt
  inf_pr_ : Flt
  inf_du_ : Flt
  inf_comp_ : Flt
  alphas_ : List ℚ
  alpha_pr_ : ℚ
  alpha_du_ : ℚ
  regularization_ : ℚ
  terminal_regularization_ : ℚ
  path_constraint_set_ : SMap Constraint
  terminal_constraint_set_ : SMap Constraint
  total_dual_dim_ : ℤ
  solver_ : Option Solver
deriving DecidableEq, Repr

/-- The step-size ladder loop shared by the constructor and `setOptions`.
`fuel` is the number of loop iterations that remain (`max_iterations - i`)
and `cur` the running `current_alpha`. The loop body pushes `cur`,
multiplies by the reduction factor, and when the product drops below
`min_step_size` while iterations remain (`i < max_iterations - 1`,
i.e. `fuel > 1`) appends `min_step_size` and breaks. -/
def alphaLoop (f minStep : ℚ) : ℚ → Nat → List ℚ
  | _, 0 => []
  | cur, n + 1 =>
    if cur * f < minStep ∧ n ≠ 0 then [cur, minStep]
    else cur :: alphaLoop f minStep (cur * f) n

/-- The step-size ladder `alphas_` built by the `CDDP` constructor and
rebuilt by `setOptions`: the loop above, followed by the fallback that
pushes `initial_step_size` when the loop produced nothing. -/
def buildAlphas (ls : LineSearchOptions) : List ℚ :=
  if (alphaLoop ls.step_reduction_factor ls.min_step_size
      ls.initial_step_size ls.max_iterations).isEmpty
  then [ls.initial_step_size]
  else alphaLoop ls.step_reduction_factor ls.min_step_size
    ls.initial_step_size ls.max_iterations

/-- A zero vector `Eigen::VectorXd::Zero(n)`. -/
def zeroVec (n : Nat) : Vec := List.replicate n 0

/-- `v.isZero()` on an `Eigen::VectorXd`. -/
def isZeroVec (v : Vec) : Bool := v.all (fun q => q == 0)

/-- The `CDDP` constructor: member-initializer list, the conditional
forwarding of the reference state to the objective, and the construction
of the step-size ladder. -/
def construct (initial_state reference_state : Vec) (horizon : Nat)
    (timestep : ℚ) (system : Option DynamicalSystem)
    (objective : Option Objective) (options : CDDPOptions) : CDDPState :=
  { initial_state_ := initial_state
    reference_state_ := reference_state
    horizon_ := horizon
    timestep_ := timestep
    system_ := system
    objective_ :=
      match objective with
      | none => none
      | some o =>
        if ¬ isZeroVec reference_state ∧ reference_state.length > 0 then
          some { o with reference_state := reference_state }
        else some o
    options_ := options
    initialized_ := false
    X_ := []
    U_ := []
    cost_ := .fin 0
    merit_function_ := .fin 0
    inf_pr_ := .fin 0
    inf_du_ := .fin 0
    inf_comp_ := .fin 0
    alphas_ := buildAlphas options.line_search
    alpha_pr_ := options.line_search.initial_step_size
    alpha_du_ := 0
    regularization_ := options.regularization.initial_value
    terminal_regularization_ := options.regularization.initial_value
    path_constraint_set_ := []
    terminal_constraint_set_ := []
    total_dual_dim_ := 0
    solver_ := none }

/-- `CDDP::setOptions`: store the options, rebuild the step-size ladder,
reset `alpha_pr_`. -/
def setOptions (st : CDDPState) (options : CDDPOptions) : CDDPState :=
  { st with
    options_ := options
    alphas_ := buildAlphas options.line_search
    alpha_pr_ := options.line_search.initial_step_size }

/-- `CDDP::setInitialTrajectory`: on a dimension mismatch the C++ code
only prints a warning to `std::cerr` (no throw path exists); it then
unconditionally installs `X` and `U` and, when `X` is non-empty,
overwrites `initial_state_` with `X[0]`. -/
def setInitialTrajectory (st : CDDPState) (X U : List Vec) : CDDPState :=
  let st1 := { st with X_ := X, U_ := U }
  match X with
  | [] => st1
  | x0 :: _ => { st1 with initial_state_ := x0 }

/-- `CDDP::addPathConstraint` after the null check (a Lean `Constraint`
value cannot be null): insert via `operator[]`, add the constraint's dual
dimension to `total_dual_dim_`, invalidate initialization. -/
def addPathConstraint (st : CDDPState) (constraint_name : String)
    (constraint : Constraint) : CDDPState :=
  { st with
    path_constraint_set_ :=
      mapInsert st.path_constraint_set_ constraint_name constraint
    total_dual_dim_ := st.total_dual_dim_ + constraint.dual_dim
    initialized_ := false }

/-- `CDDP::removePathConstraint`: when the name is found, subtract its
dual dimension, erase it and invalidate initialization, returning `true`;
otherwise return `false` with the state untouched. -/
def removePathConstraint (st : CDDPState) (constraint_name : String) :
    Bool × CDDPState :=
  match mapFind st.path_constraint_set_ constraint_name with
  | some c =>
    (true,
      { st with
        total_dual_dim_ := st.total_dual_dim_ - c.dual_dim
        path_constraint_set_ :=
          mapErase st.path_constraint_set_ constraint_name
        initialized_ := false })
  | none => (false, st)

/-- `CDDP::addTerminalConstraint`, symmetric to the path version. -/
def addTerminalConstraint (st : CDDPState) (constraint_name : String)
    (constraint : Constraint) : CDDPState :=
  { st with
    terminal_constraint_set_ :=
      mapInsert st.terminal_constraint_set_ constraint_name constraint
    total_dual_dim_ := st.total_dual_dim_ + constraint.dual_dim
    initialized_ := false }

/-- `CDDP::removeTerminalConstraint`, symmetric to the path version. -/
def removeTerminalConstraint (st : CDDPState) (constraint_name : String) :
    Bool × CDDPState :=
  match mapFind st.terminal_constraint_set_ constraint_name with
  | some c =>
    (true,
      { st with
        total_dual_dim_ := st.total_dual_dim_ - c.dual_dim
        terminal_constraint_set_ :=
          mapErase st.terminal_constraint_set_ constraint_name
        initialized_ := false })
  | none => (false, st)

/-- `CDDP::increaseRegularization`: multiply by the update factor, clamp
from above by `max_value`. -/
def increaseRegularization (st : CDDPState) : CDDPState :=
  { st with
    regularization_ :=
      min (st.regularization_ * st.options_.regularization.update_factor)
        st.options_.regularization.max_value }

/-- `CDDP::decreaseRegularization`: divide by the update factor, clamp
from below by `min_value`. -/
def decreaseRegularization (st : CDDPState) : CDDPState :=
  { st with
    regularization_ :=
      max (st.regularization_ / st.options_.regularization.update_factor)
        st.options_.regularization.min_value }

/-- `CDDP::isRegularizationLimitReached`. -/
def isRegularizationLimitReached (st : CDDPState) : Bool :=
  decide (st.options_.regularization.max_value ≤ st.regularization_)

/-- `CDDP::increaseTerminalRegularization`. -/
def increaseTerminalRegularization (st : CDDPState) : CDDPState :=
  { st with
    terminal_regularization_ :=
      min (st.terminal_regularization_ *
          st.options_.regularization.update_factor)
        st.options_.regularization.max_value }

/-- `CDDP::decreaseTerminalRegularization`. -/
def decreaseTerminalRegularization (st : CDDPState) : CDDPState :=
  { st with
    terminal_regularization_ :=
      max (st.terminal_regularization_ /
          st.options_.regularization.update_factor)
        st.options_.regularization.min_value }

/-- `CDDP::isTerminalRegularizationLimitReached`. -/
def isTerminalRegularizationLimitReached (st : CDDPState) : Bool :=
  decide (st.options_.regularization.max_value ≤ st.terminal_regularization_)

/-- `CDDP::isKKTToleranceSatisfied`: the source compares only `inf_pr_`
and `inf_du_` against the tolerance. -/
def isKKTToleranceSatisfied (st : CDDPState) : Bool :=
  st.inf_pr_.le (.fin st.options_.tolerance) &&
    st.inf_du_.le (.fin st.options_.tolerance)

/-- `std::vector::resize` on a trajectory: truncate or pad with
default-constructed (empty) `Eigen::VectorXd` values. -/
def resizeTraj (l : List Vec) (n : Nat) : List Vec :=
  l.take n ++ List.replicate (n - l.length) []

/-- `CDDP::initializeProblemIfNecessary`: early return when already
initialized; throw when the system or the objective is missing; compute
the warm-start `preserve_trajectories` predicate; rebuild `X_` and `U_`
when their lengths do not match the horizon (zeros on a cold start,
`resize` on a warm start); force `X_[0] = initial_state_`; reset the
scalar iteration state. -/
def initializeProblemIfNecessary (st : CDDPState) :
    Except CDDPError CDDPState :=
  if st.initialized_ then .ok st
  else
    match st.system_ with
    | none => .error .missingSystem
    | some sys =>
      match st.objective_ with
      | none => .error .missingObjective
      | some _ =>
        let state_dim := sys.state_dim
        let control_dim := sys.control_dim
        let preserve : Bool :=
          st.options_.warm_start && !st.X_.isEmpty && !st.U_.isEmpty &&
            st.X_.length == st.horizon_ + 1 && st.U_.length == st.horizon_ &&
            st.X_.headI.length == state_dim &&
            st.U_.headI.length == control_dim
        let X1 :=
          if st.X_.isEmpty || st.X_.length != st.horizon_ + 1 then
            if preserve then resizeTraj st.X_ (st.horizon_ + 1)
            else List.replicate (st.horizon_ + 1) (zeroVec state_dim)
          else st.X_
        let X2 := X1.set 0 st.initial_state_
        let U1 :=
          if st.U_.isEmpty || st.U_.length != st.horizon_ then
            if preserve then resizeTraj st.U_ st.horizon_
            else List.replicate st.horizon_ (zeroVec control_dim)
          else st.U_
        .ok { st with
          X_ := X2
          U_ := U1
          cost_ := .inf
          merit_function_ := .inf
          inf_pr_ := .inf
          inf_du_ := .inf
          inf_comp_ := .inf
          regularization_ := st.options_.regularization.initial_value
          terminal_regularization_ := st.options_.regularization.initial_value
          initialized_ := true }

/-- `CDDP::createSolver`: consult the external registry first, then fall
back to the chain of built-in names, and finally `nullptr` (`none`). -/
def createSolver (reg : SolverRegistry) (solver_type : String) :
    Option Solver :=
  match mapFind reg solver_type with
  | some tag => some (.external tag)
  | none =>
    if solver_type = "CLCDDP" ∨ solver_type = "CLDDP" then some .clddp
    else if solver_type = "ASDDP" then some .asddp
    else if solver_type = "LogDDP" ∨ solver_type = "LOGDDP" then some .logddp
    else if solver_type = "IPDDP" then some .ipddp
    else if solver_type = "MSIPDDP" then some .msipddp
    else if solver_type = "ALDDP" then some .alddp
    else none

/-- The fields the unknown-solver branch of `CDDP::solve` writes into the
`CDDPSolution` key-value map. -/
structure CDDPSolution where
  solver_name : String
  status_message : String
  iterations_completed : Int
  solve_time_ms : ℚ
  final_objective : ℚ
  final_step_length : ℚ
  time_points : List ℚ
  state_trajectory : List Vec
  control_trajectory : List Vec
deriving DecidableEq, Repr

/-- The status message written by the unknown-solver branch of
`CDDP::solve`. -/
def unknownSolverMessage (solver_type : String) : String :=
  "UnknownSolver - No solver registered for \x27" ++ solver_type ++ "\x27"

/-- The outcome of `CDDP::solve`: either the error solution built in
place for an unknown solver name, or delegation to the selected solver
strategy (`solver_->initialize(*this); return solver_->solve(*this);`,
whose body lives outside the embedded translation unit). Both carry the
solver-context state at the moment of the branch. -/
inductive SolveOutcome where
  | errorSolution (sol : CDDPSolution) (st : CDDPState)
  | delegated (s : Solver) (st : CDDPState)
deriving DecidableEq, Repr

/-- `CDDP::solve(const std::string&)`: initialize the problem if
necessary (which may throw), select the solver, and either return the
unknown-solver error solution or delegate to the strategy. -/
def solve (reg : SolverRegistry) (st : CDDPState) (solver_type : String) :
    Except CDDPError SolveOutcome :=
  match initializeProblemIfNecessary st with
  | .error e => .error e
  | .ok st1 =>
    let solverOpt := createSolver reg solver_type
    let st2 := { st1 with solver_ := solverOpt }
    match solverOpt with
    | none =>
      .ok (.errorSolution
        { solver_name := solver_type
          status_message := unknownSolverMessage solver_type
          iterations_completed := 0
          solve_time_ms := 0
          final_objective := 0
          final_step_length := 1
          time_points := []
          state_trajectory := []
          control_trajectory := [] } st2)
    | some s => .ok (.delegated s st2)

/-- The built-in solver names accepted by `createSolver`'s fallback
chain. -/
def isBuiltinSolverName (s : String) : Bool :=
  s == "CLCDDP" || s == "CLDDP" || s == "ASDDP" || s == "LogDDP" ||
    s == "LOGDDP" || s == "IPDDP" || s == "MSIPDDP" || s == "ALDDP"

/-- Substring containment on strings, phrased over the underlying
character lists. -/
def strContains (s sub : String) : Prop :=
  ∃ a b : List Char, s.data = a ++ sub.data ++ b

/-- A call to `increaseRegularization` or `decreaseRegularization`. -/
inductive RegOp where
  | inc
  | dec
deriving DecidableEq, Repr

/-- Apply one regularization operation. -/
def applyRegOp (st : CDDPState) : RegOp → CDDPState
  | .inc => increaseRegularization st
  | .dec => decreaseRegularization st

/-- Apply a sequence of regularization operations. -/
def applyRegOps (st : CDDPState) (ops : List RegOp) : CDDPState :=
  ops.foldl applyRegOp st

/-- Apply one terminal-regularization operation. -/
def applyTermRegOp (st : CDDPState) : RegOp → CDDPState
  | .inc => increaseTerminalRegularization st
  | .dec => decreaseTerminalRegularization st

/-- Apply a sequence of terminal-regularization operations. -/
def applyTermRegOps (st : CDDPState) (ops : List RegOp) : CDDPState :=
  ops.foldl applyTermRegOp st

/-- A constraint-store mutation. -/
inductive ConstraintOp where
  | addPath (n : String) (c : Constraint)
  | removePath (n : String)
  | addTerminal (n : String) (c : Constraint)
  | removeTerminal (n : String)
deriving DecidableEq, Repr

/-- Apply one constraint-store operation (discarding the `Bool` result of
the removals). -/
def applyConstraintOp (st : CDDPState) : ConstraintOp → CDDPState
  | .addPath n c => addPathConstraint st n c
  | .removePath n => (removePathConstraint st n).2
  | .addTerminal n c => addTerminalConstraint st n c
  | .removeTerminal n => (removeTerminalConstraint st n).2

/-- Apply a sequence of constraint-store operations. -/
def applyConstraintOps (st : CDDPState) (ops : List ConstraintOp) :
    CDDPState :=
  ops.foldl applyConstraintOp st

/-- The sum of the dual dimensions of the constraints in a store. -/
def sumDualDims (m : SMap Constraint) : ℤ :=
  (m.map (fun p => (p.2.dual_dim : ℤ))).sum

/-- The book-keeping invariant: `total_dual_dim_` equals the sum of the
dual dimensions over both constraint stores. -/
def dualDimInvariant (st : CDDPState) : Prop :=
  st.total_dual_dim_ =
    sumDualDims st.path_constraint_set_ +
      sumDualDims st.terminal_constraint_set_

instance (st : CDDPState) : Decidable (dualDimInvariant st) :=
  inferInstanceAs (Decidable (st.total_dual_dim_ =
    sumDualDims st.path_constraint_set_ +
      sumDualDims st.terminal_constraint_set_))

/-- An add operation is fresh when its name is not yet bound in the
targeted constraint store; removals are always fresh. -/
def freshOp (st : CDDPState) : ConstraintOp → Bool
  | .addPath n _ => (mapFind st.path_constraint_set_ n).isNone
  | .removePath _ => true
  | .addTerminal n _ => (mapFind st.terminal_constraint_set_ n).isNone
  | .removeTerminal _ => true

/-- A sequence of operations is fresh when each add in it uses a name not
bound at the moment it is applied. -/
def freshOps (st : CDDPState) : List ConstraintOp → Bool
  | [] => true
  | op :: ops => freshOp st op && freshOps (applyConstraintOp st op) ops

/-- Modelled from the spec: "rebuild (X, U) by state interpolation from
x_0 to x_ref" — the linear interpolation the specification predicts the
cold-start state trajectory to be. This definition follows the spec's
words (the implementation is compared against it, and differs). -/
def interpolatedTrajectory (x0 xref : Vec) (N : Nat) : List Vec :=
  (List.range (N + 1)).map (fun k =>
    (x0.zip xref).map (fun p => p.1 + ((k : ℚ) / (N : ℚ)) * (p.2 - p.1)))

/-- Concrete options used by the concrete example states below. -/
def exOptions : CDDPOptions :=
  { tolerance := 1
    warm_start := false
    line_search :=
      { max_iterations := 10
        initial_step_size := 1
        min_step_size := 1 / 100
        step_reduction_factor := 1 / 2 }
    regularization :=
      { initial_value := 1
        update_factor := 2
        max_value := 100
        min_value := 1 / 100 } }

/-- Line-search options whose initial and minimum step sizes coincide:
they satisfy the claimed precondition yet make the ladder repeat an
element. -/
def cexLineSearch : LineSearchOptions :=
  { max_iterations := 2
    initial_step_size := 1 / 2
    min_step_size := 1 / 2
    step_reduction_factor := 1 / 2 }

/-- A concrete one-dimensional dynamical system. -/
def exSystem : DynamicalSystem := { state_dim := 1, control_dim := 1 }

/-- A concrete objective. -/
def exObjective : Objective := { reference_state := [] }

/-- A concrete, fully configured solver context: one state dimension,
horizon 2, initial state `[0]`, reference state `[2]`. -/
def exState : CDDPState :=
  construct [0] [2] 2 (1 / 10) (some exSystem) (some exObjective) exOptions

/-- A configured solver context with horizon zero. -/
def zeroHorizonState : CDDPState :=
  construct [0, 0] [1, 1] 0 (1 / 10) (some { state_dim := 2, control_dim := 1 })
    (some exObjective) exOptions

/-- A solver context with no dynamical system installed. -/
def noSystemState : CDDPState :=
  construct [0] [1] 2 (1 / 10) none (some exObjective) exOptions

/-- A state whose infeasibility scalars make the complementarity measure
exceed the tolerance while the other two measures satisfy it. -/
def kktCexState : CDDPState :=
  { exState with inf_pr_ := .fin 0, inf_du_ := .fin 0, inf_comp_ := .fin 5 }

/-- A state whose regularization options are all negative: they satisfy
the claimed precondition `update_factor ≥ 1 ∧ ρ_min ≤ ρ ≤ ρ_max` yet
break the claimed clamping invariant. -/
def regCexState : CDDPState :=
  { exState with
    options_ :=
      { exOptions with
        regularization :=
          { initial_value := -2
            update_factor := 2
            max_value := -2
            min_value := -4 } }
    regularization_ := -2 }

/-! ### Shared helper lemmas -/

/-- One clamped multiplicative increase step keeps a non-negative value
inside `[mn, mx]`. -/
theorem clampInc_bounds {r f mn mx : ℚ} (hf : 1 ≤ f) (hmn : 0 ≤ mn)
    (h1 : mn ≤ r) (h2 : r ≤ mx) :
    mn ≤ min (r * f) mx ∧ min (r * f) mx ≤ mx := by
  constructor
  · exact le_min (h1.trans (le_mul_of_one_le_right (hmn.trans h1) hf))
      (h1.trans h2)
  · exact min_le_right _ _

/-- One clamped divisive decrease step keeps a non-negative value inside
`[mn, mx]`. -/
theorem clampDec_bounds {r f mn mx : ℚ} (hf : 1 ≤ f) (hmn : 0 ≤ mn)
    (h1 : mn ≤ r) (h2 : r ≤ mx) :
    mn ≤ max (r / f) mn ∧ max (r / f) mn ≤ mx := by
  refine ⟨le_max_right _ _, max_le ((div_le_self (hmn.trans h1) hf).trans h2)
    (h1.trans h2)⟩

/-- Regularization operations leave the options untouched. -/
theorem applyRegOp_options (st : CDDPState) (op : RegOp) :
    (applyRegOp st op).options_ = st.options_ := by
  cases op <;> rfl

/-- A single regularization operation preserves the clamping bounds. -/
theorem applyRegOp_bounds (st : CDDPState) (op : RegOp)
    (hf : 1 ≤ st.options_.regularization.update_factor)
    (hmn : 0 ≤ st.options_.regularization.min_value)
    (h1 : st.options_.regularization.min_value ≤ st.regularization_)
    (h2 : st.regularization_ ≤ st.options_.regularization.max_value) :
    st.options_.regularization.min_value ≤ (applyRegOp st op).regularization_ ∧
      (applyRegOp st op).regularization_ ≤
        st.options_.regularization.max_value := by
  cases op
  · exact clampInc_bounds hf hmn h1 h2
  · exact clampDec_bounds hf hmn h1 h2

/-- A sequence of regularization operations preserves the clamping
bounds. -/
theorem applyRegOps_bounds (ops : List RegOp) (st : CDDPState)
    (hf : 1 ≤ st.options_.regularization.update_factor)
    (hmn : 0 ≤ st.options_.regularization.min_value)
    (h1 : st.options_.regularization.min_value ≤ st.regularization_)
    (h2 : st.regularization_ ≤ st.options_.regularization.max_value) :
    st.options_.regularization.min_value ≤
        (applyRegOps st ops).regularization_ ∧
      (applyRegOps st ops).regularization_ ≤
        st.options_.regularization.max_value := by
  induction ops generalizing st with
  | nil => exact ⟨h1, h2⟩
  | cons op ops ih =>
    have hstep := applyRegOp_bounds st op hf hmn h1 h2
    have hopts := applyRegOp_options st op
    have := ih (applyRegOp st op) (by rw [hopts]; exact hf)
      (by rw [hopts]; exact hmn) (by rw [hopts]; exact hstep.1)
      (by rw [hopts]; exact hstep.2)
    rw [hopts] at this
    exact this

/-- Terminal-regularization operations leave the options untouched. -/
theorem applyTermRegOp_options (st : CDDPState) (op : RegOp) :
    (applyTermRegOp st op).options_ = st.options_ := by
  cases op <;> rfl

/-- A single terminal-regularization operation preserves the clamping
bounds. -/
theorem applyTermRegOp_bounds (st : CDDPState) (op : RegOp)
    (hf : 1 ≤ st.options_.regularization.update_factor)
    (hmn : 0 ≤ st.options_.regularization.min_value)
    (h1 : st.options_.regularization.min_value ≤ st.terminal_regularization_)
    (h2 : st.terminal_regularization_ ≤
      st.options_.regularization.max_value) :
    st.options_.regularization.min_value ≤
        (applyTermRegOp st op).terminal_regularization_ ∧
      (applyTermRegOp st op).terminal_regularization_ ≤
        st.options_.regularization.max_value := by
  cases op
  · exact clampInc_bounds hf hmn h1 h2
  · exact clampDec_bounds hf hmn h1 h2

/-- A sequence of terminal-regularization operations preserves the
clamping bounds. -/
theorem applyTermRegOps_bounds (ops : List RegOp) (st : CDDPState)
    (hf : 1 ≤ st.options_.regularization.update_factor)
    (hmn : 0 ≤ st.options_.regularization.min_value)
    (h1 : st.options_.regularization.min_value ≤ st.terminal_regularization_)
    (h2 : st.terminal_regularization_ ≤
      st.options_.regularization.max_value) :
    st.options_.regularization.min_value ≤
        (applyTermRegOps st ops).terminal_regularization_ ∧
      (applyTermRegOps st ops).terminal_regularization_ ≤
        st.options_.regularization.max_value := by
  induction ops generalizing st with
  | nil => exact ⟨h1, h2⟩
  | cons op ops ih =>
    have hstep := applyTermRegOp_bounds st op hf hmn h1 h2
    have hopts := applyTermRegOp_options st op
    have := ih (applyTermRegOp st op) (by rw [hopts]; exact hf)
      (by rw [hopts]; exact hmn) (by rw [hopts]; exact hstep.1)
      (by rw [hopts]; exact hstep.2)
    rw [hopts] at this
    exact this

/-- Unfolding the store sum over a cons cell. -/
theorem sumDualDims_cons (k : String) (v : Constraint) (m : SMap Constraint) :
    sumDualDims ((k, v) :: m) = (v.dual_dim : ℤ) + sumDualDims m := by
  simp [sumDualDims]

/-- Inserting a fresh key adds its dual dimension to the store sum. -/
theorem sumDualDims_mapInsert_fresh (m : SMap Constraint) (k : String)
    (c : Constraint) (h : mapFind m k = none) :
    sumDualDims (mapInsert m k c) = sumDualDims m + c.dual_dim := by
  induction m with
  | nil => simp [mapInsert, sumDualDims]
  | cons p rest ih =>
    obtain ⟨k', v'⟩ := p
    by_cases hk : k' = k
    · simp [mapFind, hk] at h
    · simp only [mapFind, hk, ite_false] at h
      simp only [mapInsert, hk, ite_false]
      rw [sumDualDims_cons, sumDualDims_cons, ih h]
      ring

/-- Erasing a key found with value `c` subtracts its dual dimension from
the store sum. -/
theorem sumDualDims_mapErase (m : SMap Constraint) (k : String)
    (c : Constraint) (h : mapFind m k = some c) :
    sumDualDims (mapErase m k) = sumDualDims m - c.dual_dim := by
  induction m with
  | nil => simp [mapFind] at h
  | cons p rest ih =>
    obtain ⟨k', v'⟩ := p
    by_cases hk : k' = k
    · simp only [mapFind, hk, ite_true, Option.some.injEq] at h
      subst h
      simp only [mapErase, hk, ite_true]
      rw [sumDualDims_cons]
      ring
    · simp only [mapFind, hk, ite_false] at h
      simp only [mapErase, hk, ite_false]
      rw [sumDualDims_cons, sumDualDims_cons, ih h]
      ring

/-- A single fresh constraint-store operation preserves the dual-dimension
invariant. -/
theorem applyConstraintOp_invariant (st : CDDPState) (op : ConstraintOp)
    (hinv : dualDimInvariant st) (hfresh : freshOp st op = true) :
    dualDimInvariant (applyConstraintOp st op) := by
  unfold dualDimInvariant at hinv ⊢
  cases op with
  | addPath n c =>
    simp only [freshOp, Option.isNone_iff_eq_none] at hfresh
    simp [applyConstraintOp, addPathConstraint,
      sumDualDims_mapInsert_fresh _ _ _ hfresh, hinv]
    ring
  | addTerminal n c =>
    simp only [freshOp, Option.isNone_iff_eq_none] at hfresh
    simp [applyConstraintOp, addTerminalConstraint,
      sumDualDims_mapInsert_fresh _ _ _ hfresh, hinv]
    ring
  | removePath n =>
    simp only [applyConstraintOp, removePathConstraint]
    cases hf : mapFind st.path_constraint_set_ n with
    | none => simpa using hinv
    | some c =>
      simp [sumDualDims_mapErase _ _ _ hf, hinv]
      ring
  | removeTerminal n =>
    simp only [applyConstraintOp, removeTerminalConstraint]
    cases hf : mapFind st.terminal_constraint_set_ n with
    | none => simpa using hinv
    | some c =>
      simp [sumDualDims_mapErase _ _ _ hf, hinv]
      ring

/-- A sequence of fresh constraint-store operations preserves the
dual-dimension invariant. -/
theorem applyConstraintOps_invariant (ops : List ConstraintOp)
    (st : CDDPState) (hinv : dualDimInvariant st)
    (hfresh : freshOps st ops = true) :
    dualDimInvariant (applyConstraintOps st ops) := by
  induction ops generalizing st with
  | nil => exact hinv
  | cons op ops ih =>
    simp only [freshOps, Bool.and_eq_true] at hfresh
    exact ih (applyConstraintOp st op)
      (applyConstraintOp_invariant st op hinv hfresh.1) hfresh.2

/-- When already initialized, initialization is the identity. -/
theorem initialize_of_initialized (st : CDDPState)
    (h : st.initialized_ = true) :
    initializeProblemIfNecessary st = .ok st := by
  unfold initializeProblemIfNecessary
  rw [if_pos h]

/-- With the system missing and not yet initialized, initialization
throws `missingSystem`. -/
theorem initialize_missing_system (st : CDDPState)
    (hinit : st.initialized_ = false) (hs : st.system_ = none) :
    initializeProblemIfNecessary st = .error .missingSystem := by
  unfold initializeProblemIfNecessary
  rw [if_neg (by rw [hinit]; exact Bool.false_ne_true), hs]

/-- With a system but no objective and not yet initialized,
initialization throws `missingObjective`. -/
theorem initialize_missing_objective (st : CDDPState)
    (sys : DynamicalSystem) (hinit : st.initialized_ = false)
    (hs : st.system_ = some sys) (ho : st.objective_ = none) :
    initializeProblemIfNecessary st = .error .missingObjective := by
  unfold initializeProblemIfNecessary
  rw [if_neg (by rw [hinit]; exact Bool.false_ne_true), hs, ho]

/-- With system and objective present, initialization never throws. -/
theorem initialize_ok_of_configured (st : CDDPState)
    (hsys : st.system_.isSome = true) (hobj : st.objective_.isSome = true) :
    ∃ st1, initializeProblemIfNecessary st = .ok st1 := by
  obtain ⟨sys, hs⟩ := Option.isSome_iff_exists.mp hsys
  obtain ⟨obj, ho⟩ := Option.isSome_iff_exists.mp hobj
  by_cases hI : st.initialized_ = true
  · exact ⟨st, initialize_of_initialized st hI⟩
  · unfold initializeProblemIfNecessary
    rw [if_neg hI, hs, ho]
    exact ⟨_, rfl⟩

/-! ### C4 — configuration errors on solve -/

/-- C4 counterexample: with system and objective present but the horizon
equal to zero, `solve` performs no horizon check and does not raise — it
returns normally (here delegating to the built-in IPDDP strategy), so a
zero horizon is not a raised configuration error. -/
theorem solve_zero_horizon_no_raise_cex :
    zeroHorizonState.horizon_ = 0 ∧
      zeroHorizonState.system_.isSome = true ∧
      zeroHorizonState.objective_.isSome = true ∧
      zeroHorizonState.initialized_ = false ∧
      (match solve [] zeroHorizonState "IPDDP" with
        | .ok _ => true
        | .error _ => false) = true := by
  with_unfolding_all decide

/-- C4 (amended): on an uninitialized context, `solve` raises exactly
when the dynamics model or the objective is missing (`missingSystem`
taking precedence); a zero horizon raises nothing. In the embedding an
error carries no post-state, mirroring that the C++ code throws before
its first write to the solver state. -/
theorem solve_config_error_iff (reg : SolverRegistry) (st : CDDPState)
    (name : String) (hinit : st.initialized_ = false) :
    ((∃ e, solve reg st name = .error e) ↔
      (st.system_ = none ∨ st.objective_ = none)) ∧
    (st.system_ = none → solve reg st name = .error .missingSystem) ∧
    (∀ sys, st.system_ = some sys → st.objective_ = none →
      solve reg st name = .error .missingObjective) := by
  have hsys_err : st.system_ = none →
      solve reg st name = .error .missingSystem := by
    intro hs
    unfold solve
    rw [initialize_missing_system st hinit hs]
  have hobj_err : ∀ sys, st.system_ = some sys → st.objective_ = none →
      solve reg st name = .error .missingObjective := by
    intro sys hs ho
    unfold solve
    rw [initialize_missing_objective st sys hinit hs ho]
  refine ⟨⟨?_, ?_⟩, hsys_err, hobj_err⟩
  · rintro ⟨e, he⟩
    by_contra hcon
    push_neg at hcon
    obtain ⟨hs, ho⟩ := hcon
    obtain ⟨sys, hsys⟩ := Option.ne_none_iff_exists'.mp hs
    obtain ⟨obj, hobj⟩ := Option.ne_none_iff_exists'.mp ho
    obtain ⟨st1, hok⟩ := initialize_ok_of_configured st
      (by rw [hsys]; rfl) (by rw [hobj]; rfl)
    unfold solve at he
    rw [hok] at he
    cases hcs : createSolver reg name <;> rw [hcs] at he <;> cases he
  · rintro (hs | ho)
    · exact ⟨.missingSystem, hsys_err hs⟩
    · cases hs : st.system_ with
      | none => exact ⟨.missingSystem, hsys_err hs⟩
      | some sys => exact ⟨.missingObjective, hobj_err sys hs ho⟩

/-- C4 witness: a context constructed without a dynamical system makes
`solve` throw `missingSystem`. -/
theorem solve_config_error_iff_witness :
    solve [] noSystemState "IPDDP" = .error .missingSystem :=
  (solve_config_error_iff [] noSystemState "IPDDP" rfl).2.1 rfl

/-- With no external registration and a name outside the built-in chain,
`createSolver` returns `none` (`nullptr`). -/
theorem createSolver_eq_none (reg : SolverRegistry) (name : String)
    (hr : mapFind reg name = none) (hb : isBuiltinSolverName name = false) :
    createSolver reg name = none := by
  simp only [isBuiltinSolverName, Bool.or_eq_false_iff, beq_eq_false_iff_ne,
    ne_eq] at hb
  obtain ⟨⟨⟨⟨⟨⟨⟨h1, h2⟩, h3⟩, h4⟩, h5⟩, h6⟩, h7⟩, h8⟩ := hb
  unfold createSolver
  rw [hr]
  simp [h1, h2, h3, h4, h5, h6, h7, h8]

/-- The unknown-solver status message contains the substring
`UnknownSolver`. -/
theorem strContains_unknownSolverMessage (name : String) :
    strContains (unknownSolverMessage name) "UnknownSolver" := by
  refine ⟨[], (" - No solver registered for \x27".data ++ name.data ++
    "\x27".data), ?_⟩
  have h1 : (unknownSolverMessage name).data =
      "UnknownSolver - No solver registered for \x27".data ++ name.data ++
        "\x27".data := by
    simp [unknownSolverMessage, String.data_append]
  have h2 : "UnknownSolver - No solver registered for \x27".data =
      "UnknownSolver".data ++ " - No solver registered for \x27".data := by
    decide
  rw [h1, h2]
  simp [List.append_assoc]

/-! ### C1 — unknown solver name -/

/-- C1: for a configured problem and a solver name that is neither
built-in nor externally registered, `solve` does not throw and returns
the error solution: its status message contains `UnknownSolver`, its
state, control and time sequences are empty, and it reports zero
completed iterations. -/
theorem solve_unknown_solver_wellformed (reg : SolverRegistry)
    (st : CDDPState) (name : String)
    (hsys : st.system_.isSome = true) (hobj : st.objective_.isSome = true)
    (hb : isBuiltinSolverName name = false)
    (hr : mapFind reg name = none) :
    ∃ sol st', solve reg st name = .ok (.errorSolution sol st') ∧
      strContains sol.status_message "UnknownSolver" ∧
      sol.state_trajectory = [] ∧ sol.control_trajectory = [] ∧
      sol.time_points = [] ∧ sol.iterations_completed = 0 := by
  obtain ⟨st1, hok⟩ := initialize_ok_of_configured st hsys hobj
  have hsolve : solve reg st name = .ok (.errorSolution
      { solver_name := name
        status_message := unknownSolverMessage name
        iterations_completed := 0
        solve_time_ms := 0
        final_objective := 0
        final_step_length := 1
        time_points := []
        state_trajectory := []
        control_trajectory := [] } { st1 with solver_ := none }) := by
    unfold solve
    rw [hok]
    simp only [createSolver_eq_none reg name hr hb]
  exact ⟨_, _, hsolve, strContains_unknownSolverMessage name, rfl, rfl, rfl,
    rfl⟩

/-- C1 witness: solving the configured example problem with the name
`NoSuchSolver` on an empty registry. -/
theorem solve_unknown_solver_wellformed_witness :
    ∃ sol st', solve [] exState "NoSuchSolver" = .ok (.errorSolution sol st') ∧
      strContains sol.status_message "UnknownSolver" ∧
      sol.state_trajectory = [] ∧ sol.control_trajectory = [] ∧
      sol.time_points = [] ∧ sol.iterations_completed = 0 :=
  solve_unknown_solver_wellformed [] exState "NoSuchSolver" rfl rfl
    (by decide) rfl

/-- Lookup after a `std::map` assignment finds the assigned value. -/
theorem mapFind_mapInsert_self {α : Type} (m : SMap α) (k : String) (v : α) :
    mapFind (mapInsert m k v) k = some v := by
  induction m with
  | nil => simp [mapInsert, mapFind]
  | cons p rest ih =>
    obtain ⟨k', v'⟩ := p
    by_cases hk : k' = k
    · simp [mapInsert, mapFind, hk]
    · simp only [mapInsert, hk, ite_false]
      simp only [mapFind, hk, ite_false]
      exact ih

/-- An externally registered factory is what `createSolver` returns. -/
theorem createSolver_of_registered (reg : SolverRegistry) (name : String)
    (tag : Nat) (hr : mapFind reg name = some tag) :
    createSolver reg name = some (.external tag) := by
  unfold createSolver
  rw [hr]

/-! ### C10 — external registry shadows built-ins -/

/-- C10: `createSolver` consults the external registry before the
built-in name chain, so a registered factory — including one registered
under a built-in name — is what every subsequent `solve` call uses;
registering a name twice replaces the earlier factory; and
`isSolverRegistered` reports exactly external registrations, in
particular `false` for built-in names that were never externally
registered. -/
theorem solver_registry_spec :
    (∀ (reg : SolverRegistry) (name : String) (tag : Nat),
      mapFind reg name = some tag →
      createSolver reg name = some (.external tag)) ∧
    (∀ (reg : SolverRegistry) (st : CDDPState) (name : String) (tag : Nat),
      mapFind reg name = some tag → st.system_.isSome = true →
      st.objective_.isSome = true →
      ∃ st', solve reg st name = .ok (.delegated (.external tag) st')) ∧
    (∀ (reg : SolverRegistry) (name : String) (t1 t2 : Nat),
      mapFind (registerSolver (registerSolver reg name t1) name t2) name =
        some t2) ∧
    (∀ (reg : SolverRegistry) (name : String) (tag : Nat),
      createSolver (registerSolver reg name tag) name =
        some (.external tag)) ∧
    (∀ (reg : SolverRegistry) (name : String),
      isSolverRegistered reg name = (mapFind reg name).isSome) ∧
    (∀ (reg : SolverRegistry) (name : String),
      isBuiltinSolverName name = true → mapFind reg name = none →
      isSolverRegistered reg name = false) := by
  refine ⟨createSolver_of_registered, ?_, ?_, ?_, fun reg name => rfl, ?_⟩
  · intro reg st name tag hr hsys hobj
    obtain ⟨st1, hok⟩ := initialize_ok_of_configured st hsys hobj
    refine ⟨{ st1 with solver_ := some (.external tag) }, ?_⟩
    unfold solve
    rw [hok]
    simp only [createSolver_of_registered reg name tag hr]
  · intro reg name t1 t2
    exact mapFind_mapInsert_self _ name t2
  · intro reg name tag
    exact createSolver_of_registered _ name tag
      (mapFind_mapInsert_self reg name tag)
  · intro reg name _ hr
    simp [isSolverRegistered, hr]

/-- C10 witness: registering `IPDDP` twice externally (tags 7 then 9)
makes `solve` on the configured example problem delegate to the external
solver with tag 9 rather than the built-in IPDDP, while the empty
registry reports `IPDDP` as not registered. -/
theorem solver_registry_spec_witness :
    (∃ st', solve (registerSolver (registerSolver [] "IPDDP" 7) "IPDDP" 9)
      exState "IPDDP" = .ok (.delegated (.external 9) st')) ∧
      isSolverRegistered [] "IPDDP" = false :=
  ⟨solver_registry_spec.2.1 (registerSolver (registerSolver [] "IPDDP" 7)
      "IPDDP" 9) exState "IPDDP" 9 (by decide) rfl rfl,
    solver_registry_spec.2.2.2.2.2 [] "IPDDP" (by decide) rfl⟩

/-- Setting index 0 of a non-empty list makes the new value the head. -/
theorem head_set_zero (l : List Vec) (v : Vec) (h : l ≠ []) :
    (l.set 0 v).head? = some v := by
  cases l with
  | nil => exact absurd rfl h
  | cons a t => rfl

/-- `resize` produces a list of exactly the requested length. -/
theorem resizeTraj_length (l : List Vec) (n : Nat) :
    (resizeTraj l n).length = n := by
  simp [resizeTraj]
  omega

/-- On an uninitialized, configured context whose trajectory lengths both
mismatch the horizon, initialization rebuilds `X_` as the initial state
followed by zero states, and `U_` as zero controls. -/
theorem initialize_cold_start (st : CDDPState) (sys : DynamicalSystem)
    (obj : Objective) (hinit : st.initialized_ = false)
    (hs : st.system_ = some sys) (ho : st.objective_ = some obj)
    (hX : st.X_.length ≠ st.horizon_ + 1) (hU : st.U_.length ≠ st.horizon_) :
    initializeProblemIfNecessary st = .ok { st with
      X_ := st.initial_state_ ::
        List.replicate st.horizon_ (zeroVec sys.state_dim)
      U_ := List.replicate st.horizon_ (zeroVec sys.control_dim)
      cost_ := .inf
      merit_function_ := .inf
      inf_pr_ := .inf
      inf_du_ := .inf
      inf_comp_ := .inf
      regularization_ := st.options_.regularization.initial_value
      terminal_regularization_ := st.options_.regularization.initial_value
      initialized_ := true } := by
  unfold initializeProblemIfNecessary
  rw [if_neg (by rw [hinit]; exact Bool.false_ne_true), hs, ho]
  have h1 : (st.X_.length == st.horizon_ + 1) = false := by simp [hX]
  have h2 : (st.U_.length == st.horizon_) = false := by simp [hU]
  simp [h1, h2, hX, hU, List.replicate_succ]

/-! ### C3 — cold-start trajectory initialization -/

/-- C3 counterexample: on the configured example problem (initial state
`[0]`, reference state `[2]`, horizon 2, empty stored trajectories), the
cold-start state trajectory is not the interpolation from `x_0` to
`x_ref` predicted by the claim: the code produces `[0]` at index 1 where
the interpolation has `[1]`. -/
theorem coldStart_not_interpolation_cex :
    exState.initialized_ = false ∧ exState.X_ = [] ∧
      interpolatedTrajectory exState.initial_state_ exState.reference_state_
          exState.horizon_ = [[0], [1], [2]] ∧
      (match initializeProblemIfNecessary exState with
        | .ok st => some st.X_
        | .error _ => none) = some [[(0 : ℚ)], [0], [0]] ∧
      (match initializeProblemIfNecessary exState with
        | .ok st => some st.X_
        | .error _ => none) ≠
        some (interpolatedTrajectory exState.initial_state_
          exState.reference_state_ exState.horizon_) := by
  with_unfolding_all decide

/-- C3 (amended): on a cold start (uninitialized, configured, both stored
trajectory lengths mismatching the horizon, as on first initialization),
initialization rebuilds `X` as all-zero states with `X[0]` overwritten by
`x_0` — not by interpolation toward `x_ref` — and sets every control in
`U` to zero, with `dim(X) = N+1`, `dim(U) = N` and `X[0] = x_0`
afterwards. -/
theorem coldStart_zeroes_trajectories (st : CDDPState)
    (sys : DynamicalSystem) (obj : Objective)
    (hinit : st.initialized_ = false)
    (hs : st.system_ = some sys) (ho : st.objective_ = some obj)
    (hX : st.X_.length ≠ st.horizon_ + 1) (hU : st.U_.length ≠ st.horizon_) :
    ∃ st', initializeProblemIfNecessary st = .ok st' ∧
      st'.X_ = st.initial_state_ ::
        List.replicate st.horizon_ (zeroVec sys.state_dim) ∧
      st'.U_ = List.replicate st.horizon_ (zeroVec sys.control_dim) ∧
      st'.X_.length = st.horizon_ + 1 ∧
      st'.U_.length = st.horizon_ ∧
      st'.X_.head? = some st.initial_state_ := by
  refine ⟨_, initialize_cold_start st sys obj hinit hs ho hX hU, rfl, rfl,
    ?_, ?_, rfl⟩
  · simp
  · simp

/-- C3 witness: the amended cold-start behaviour on the concrete example
problem. -/
theorem coldStart_zeroes_trajectories_witness :
    ∃ st', initializeProblemIfNecessary exState = .ok st' ∧
      st'.X_ = exState.initial_state_ ::
        List.replicate exState.horizon_ (zeroVec exSystem.state_dim) ∧
      st'.U_ = List.replicate exState.horizon_ (zeroVec exSystem.control_dim) ∧
      st'.X_.length = exState.horizon_ + 1 ∧
      st'.U_.length = exState.horizon_ ∧
      st'.X_.head? = some exState.initial_state_ :=
  coldStart_zeroes_trajectories exState exSystem
    { reference_state := [2] } rfl rfl rfl (by decide) (by decide)

/-! ### C9 — setInitialTrajectory overwrites the initial state -/

/-- C9: a non-empty `X` handed to `setInitialTrajectory` overwrites the
stored initial state with `X[0]` — even when the lengths mismatch the
horizon — and a subsequent solve's initialization starts the state
trajectory at that `X[0]` rather than at any previously supplied initial
state. -/
theorem setInitialTrajectory_overwrites_x0 (st : CDDPState) (U : List Vec)
    (x0 : Vec) (rest : List Vec) (sys : DynamicalSystem) (obj : Objective)
    (hs : st.system_ = some sys) (ho : st.objective_ = some obj) :
    (setInitialTrajectory st (x0 :: rest) U).initial_state_ = x0 ∧
    ∃ st', initializeProblemIfNecessary
        (setInitialTrajectory st (x0 :: rest) U) = .ok st' ∧
      st'.initial_state_ = x0 ∧ st'.X_.head? = some x0 := by
  refine ⟨rfl, ?_⟩
  have hst1 : setInitialTrajectory st (x0 :: rest) U =
      { st with X_ := x0 :: rest, U_ := U, initial_state_ := x0 } := rfl
  rw [hst1]
  by_cases hI : st.initialized_ = true
  · exact ⟨_, initialize_of_initialized _ (by exact hI), rfl, rfl⟩
  · unfold initializeProblemIfNecessary
    rw [if_neg (by simpa using hI)]
    simp only [hs, ho]
    refine ⟨_, rfl, rfl, ?_⟩
    apply head_set_zero
    split
    · split
      · intro hcontra
        have hlen := resizeTraj_length (x0 :: rest) (st.horizon_ + 1)
        rw [hcontra] at hlen
        exact Nat.succ_ne_zero _ hlen.symm
      · intro hcontra
        have hlen : (List.replicate (st.horizon_ + 1)
            (zeroVec sys.state_dim)).length = st.horizon_ + 1 := by simp
        rw [hcontra] at hlen
        exact Nat.succ_ne_zero _ hlen.symm
    · exact List.cons_ne_nil _ _

/-- C9 witness: a two-state trajectory against horizon 2 (a length
mismatch) still rebases the initial state and the solve-time trajectory
head onto its first element. -/
theorem setInitialTrajectory_overwrites_x0_witness :
    (setInitialTrajectory exState [[5], [6]] []).initial_state_ = [5] ∧
    ∃ st', initializeProblemIfNecessary
        (setInitialTrajectory exState [[5], [6]] []) = .ok st' ∧
      st'.initial_state_ = [5] ∧ st'.X_.head? = some [5] :=
  setInitialTrajectory_overwrites_x0 exState [] [5] [[6]] exSystem
    { reference_state := [2] } rfl rfl

/-! ### C6 — constraint stores and total dual dimension -/

/-- C6 counterexample: the constructor establishes the dual-dimension
invariant, but adding a second constraint under an already-used name
(`operator[]` replaces the stored constraint while `total_dual_dim_`
still grows by the new dual dimension) breaks it, so the invariant does
not hold at every point between operations. -/
theorem dual_dim_invariant_cex :
    dualDimInvariant exState ∧
      ¬ dualDimInvariant
        (addPathConstraint
          (addPathConstraint exState "box" { dual_dim := 2 })
          "box" { dual_dim := 3 }) := by
  with_unfolding_all decide

/-- C6 (amended): `total_dual_dim_` equals the sum of the dual dimensions
of all held constraints at every point between operations provided every
add uses a name not currently bound in the targeted store (a duplicate
add replaces the constraint but still accumulates its dual dimension);
each add grows `total_dual_dim_` by the added constraint's dual dimension
and invalidates initialization; each remove returns `true`, shrinks
`total_dual_dim_` by the removed constraint's dual dimension and
invalidates initialization exactly when the name is present, and returns
`false` leaving the state unchanged when it is not. -/
theorem constraint_ops_dual_dim_spec :
    (∀ (st : CDDPState) (ops : List ConstraintOp), dualDimInvariant st →
      freshOps st ops = true → dualDimInvariant (applyConstraintOps st ops)) ∧
    (∀ (st : CDDPState) (n : String) (c : Constraint),
      (addPathConstraint st n c).total_dual_dim_ =
          st.total_dual_dim_ + c.dual_dim ∧
        (addPathConstraint st n c).initialized_ = false) ∧
    (∀ (st : CDDPState) (n : String) (c : Constraint),
      (addTerminalConstraint st n c).total_dual_dim_ =
          st.total_dual_dim_ + c.dual_dim ∧
        (addTerminalConstraint st n c).initialized_ = false) ∧
    (∀ (st : CDDPState) (n : String),
      mapFind st.path_constraint_set_ n = none →
      removePathConstraint st n = (false, st)) ∧
    (∀ (st : CDDPState) (n : String) (c : Constraint),
      mapFind st.path_constraint_set_ n = some c →
      (removePathConstraint st n).1 = true ∧
        (removePathConstraint st n).2.total_dual_dim_ =
          st.total_dual_dim_ - c.dual_dim ∧
        (removePathConstraint st n).2.initialized_ = false) ∧
    (∀ (st : CDDPState) (n : String),
      mapFind st.terminal_constraint_set_ n = none →
      removeTerminalConstraint st n = (false, st)) ∧
    (∀ (st : CDDPState) (n : String) (c : Constraint),
      mapFind st.terminal_constraint_set_ n = some c →
      (removeTerminalConstraint st n).1 = true ∧
        (removeTerminalConstraint st n).2.total_dual_dim_ =
          st.total_dual_dim_ - c.dual_dim ∧
        (removeTerminalConstraint st n).2.initialized_ = false) := by
  refine ⟨fun st ops h hf => applyConstraintOps_invariant ops st h hf,
    fun st n c => ⟨rfl, rfl⟩, fun st n c => ⟨rfl, rfl⟩,
    fun st n h => ?_, fun st n c h => ?_, fun st n h => ?_,
    fun st n c h => ?_⟩
  · simp [removePathConstraint, h]
  · simp [removePathConstraint, h]
  · simp [removeTerminalConstraint, h]
  · simp [removeTerminalConstraint, h]

/-- C6 witness: the invariant applied after adding a path constraint, a
terminal constraint and removing the first again. -/
theorem constraint_ops_dual_dim_spec_witness :
    dualDimInvariant (applyConstraintOps exState
      [ConstraintOp.addPath "box" { dual_dim := 2 },
        ConstraintOp.addTerminal "goal" { dual_dim := 1 },
        ConstraintOp.removePath "box"]) :=
  constraint_ops_dual_dim_spec.1 exState
    [ConstraintOp.addPath "box" { dual_dim := 2 },
      ConstraintOp.addTerminal "goal" { dual_dim := 1 },
      ConstraintOp.removePath "box"]
    (by with_unfolding_all decide) (by with_unfolding_all decide)

/-! ### C2 — KKT tolerance check -/

/-- C2 counterexample: a state whose primal and dual infeasibilities meet
the tolerance but whose complementarity infeasibility exceeds it;
`isKKTToleranceSatisfied` nevertheless returns `true`, so the check is
not equivalent to "all three measures within tolerance". -/
theorem kkt_ignores_inf_comp_cex :
    isKKTToleranceSatisfied kktCexState = true ∧
      Flt.le kktCexState.inf_pr_ (.fin kktCexState.options_.tolerance) = true ∧
      Flt.le kktCexState.inf_du_ (.fin kktCexState.options_.tolerance) = true ∧
      Flt.le kktCexState.inf_comp_ (.fin kktCexState.options_.tolerance) =
        false := by
  decide

/-- C2 (amended): `isKKTToleranceSatisfied` returns `true` exactly when
the primal infeasibility and the dual infeasibility are both within
`options.tolerance`; the complementarity infeasibility is not consulted. -/
theorem isKKTToleranceSatisfied_iff (st : CDDPState) :
    isKKTToleranceSatisfied st = true ↔
      (Flt.le st.inf_pr_ (.fin st.options_.tolerance) = true ∧
        Flt.le st.inf_du_ (.fin st.options_.tolerance) = true) := by
  simp [isKKTToleranceSatisfied]

/-! ### C5 — regularization controller -/

/-- C5 counterexample: with every regularization option negative, the
claimed precondition `update_factor ≥ 1 ∧ ρ_min ≤ ρ ≤ ρ_max` holds, yet
one `decreaseRegularization` call pushes `ρ` above `ρ_max`
(`max(-2 / 2, -4) = -1 > -2`). -/
theorem regularization_bounds_cex :
    1 ≤ regCexState.options_.regularization.update_factor ∧
      regCexState.options_.regularization.min_value ≤
        regCexState.regularization_ ∧
      regCexState.regularization_ ≤
        regCexState.options_.regularization.max_value ∧
      ¬ ((decreaseRegularization regCexState).regularization_ ≤
        regCexState.options_.regularization.max_value) := by
  with_unfolding_all decide

/-- C5 (amended): with the additional precondition `0 ≤ ρ_min`,
`increaseRegularization` multiplies `ρ` by `update_factor` clamping to at
most `ρ_max`, `decreaseRegularization` divides clamping to at least
`ρ_min`, every sequence of increase/decrease calls keeps `ρ` within
`[ρ_min, ρ_max]`, `isRegularizationLimitReached` holds exactly when
`ρ ≥ ρ_max`, and the terminal-regularization counter behaves
identically under its own three operations. -/
theorem regularization_controller_spec :
    (∀ st : CDDPState,
      (increaseRegularization st).regularization_ =
        min (st.regularization_ * st.options_.regularization.update_factor)
          st.options_.regularization.max_value) ∧
    (∀ st : CDDPState,
      (decreaseRegularization st).regularization_ =
        max (st.regularization_ / st.options_.regularization.update_factor)
          st.options_.regularization.min_value) ∧
    (∀ st : CDDPState, isRegularizationLimitReached st = true ↔
      st.options_.regularization.max_value ≤ st.regularization_) ∧
    (∀ (st : CDDPState) (ops : List RegOp),
      1 ≤ st.options_.regularization.update_factor →
      0 ≤ st.options_.regularization.min_value →
      st.options_.regularization.min_value ≤ st.regularization_ →
      st.regularization_ ≤ st.options_.regularization.max_value →
      st.options_.regularization.min_value ≤
          (applyRegOps st ops).regularization_ ∧
        (applyRegOps st ops).regularization_ ≤
          st.options_.regularization.max_value) ∧
    (∀ st : CDDPState,
      (increaseTerminalRegularization st).terminal_regularization_ =
        min (st.terminal_regularization_ *
            st.options_.regularization.update_factor)
          st.options_.regularization.max_value) ∧
    (∀ st : CDDPState,
      (decreaseTerminalRegularization st).terminal_regularization_ =
        max (st.terminal_regularization_ /
            st.options_.regularization.update_factor)
          st.options_.regularization.min_value) ∧
    (∀ st : CDDPState, isTerminalRegularizationLimitReached st = true ↔
      st.options_.regularization.max_value ≤ st.terminal_regularization_) ∧
    (∀ (st : CDDPState) (ops : List RegOp),
      1 ≤ st.options_.regularization.update_factor →
      0 ≤ st.options_.regularization.min_value →
      st.options_.regularization.min_value ≤ st.terminal_regularization_ →
      st.terminal_regularization_ ≤ st.options_.regularization.max_value →
      st.options_.regularization.min_value ≤
          (applyTermRegOps st ops).terminal_regularization_ ∧
        (applyTermRegOps st ops).terminal_regularization_ ≤
          st.options_.regularization.max_value) := by
  refine ⟨fun _ => rfl, fun _ => rfl, fun st => ?_,
    fun st ops hf hmn h1 h2 => applyRegOps_bounds ops st hf hmn h1 h2,
    fun _ => rfl, fun _ => rfl, fun st => ?_,
    fun st ops hf hmn h1 h2 => applyTermRegOps_bounds ops st hf hmn h1 h2⟩
  · simp [isRegularizationLimitReached]
  · simp [isTerminalRegularizationLimitReached]

/-- C5 witness: the amended invariant applied to the concrete example
state and the operation sequence increase–decrease–increase. -/
theorem regularization_controller_spec_witness :
    exState.options_.regularization.min_value ≤
        (applyRegOps exState [RegOp.inc, RegOp.dec, RegOp.inc]).regularization_ ∧
      (applyRegOps exState
          [RegOp.inc, RegOp.dec, RegOp.inc]).regularization_ ≤
        exState.options_.regularization.max_value :=
  regularization_controller_spec.2.2.2.1 exState
    [RegOp.inc, RegOp.dec, RegOp.inc] (by with_unfolding_all decide)
    (by with_unfolding_all decide) (by with_unfolding_all decide)
    (by with_unfolding_all decide)

/-- The step relation along the step-size ladder: each element stays at
or above the minimum step size, does not grow, and is either the previous
element scaled by the reduction factor or the appended minimum step size
(appended exactly when the scaled value would fall below it). -/
def LadderStep (ls : LineSearchOptions) (a b : ℚ) : Prop :=
  ls.min_step_size ≤ b ∧ b ≤ a ∧
    (b = a * ls.step_reduction_factor ∨
      (b = ls.min_step_size ∧
        a * ls.step_reduction_factor < ls.min_step_size))

/-- Elements, head and chain structure of the step-size ladder loop. -/
theorem alphaLoop_props (ls : LineSearchOptions)
    (_hf0 : 0 < ls.step_reduction_factor)
    (hf1 : ls.step_reduction_factor < 1)
    (hm0 : 0 < ls.min_step_size) :
    ∀ (n : Nat) (cur : ℚ), ls.min_step_size ≤ cur →
      (∀ x ∈ alphaLoop ls.step_reduction_factor ls.min_step_size cur n,
        ls.min_step_size ≤ x ∧ x ≤ cur) ∧
      (alphaLoop ls.step_reduction_factor ls.min_step_size cur n).head? =
        (if n = 0 then none else some cur) ∧
      List.Chain' (LadderStep ls)
        (alphaLoop ls.step_reduction_factor ls.min_step_size cur n) := by
  intro n
  induction n with
  | zero => intro cur _; simp [alphaLoop]
  | succ m ih =>
    intro cur hcur
    by_cases hcond :
        cur * ls.step_reduction_factor < ls.min_step_size ∧ m ≠ 0
    · rw [alphaLoop, if_pos hcond]
      refine ⟨?_, by simp, ?_⟩
      · intro x hx
        simp only [List.mem_cons, List.not_mem_nil, or_false] at hx
        rcases hx with rfl | rfl
        · exact ⟨hcur, le_refl _⟩
        · exact ⟨le_refl _, hcur⟩
      · refine List.chain'_cons.mpr ⟨⟨le_refl _, hcur, ?_⟩, ?_⟩
        · exact Or.inr ⟨rfl, hcond.1⟩
        · exact List.chain'_singleton _
    · rw [alphaLoop, if_neg hcond]
      have hcurpos : 0 < cur := lt_of_lt_of_le hm0 hcur
      have hstep : cur * ls.step_reduction_factor ≤ cur :=
        mul_le_of_le_one_right (le_of_lt hcurpos) (le_of_lt hf1)
      rcases Nat.eq_zero_or_pos m with hm | hm
      · subst hm
        simp only [alphaLoop]
        refine ⟨?_, by simp, List.chain'_singleton _⟩
        intro x hx
        simp only [List.mem_cons, List.not_mem_nil, or_false] at hx
        rcases hx with rfl
        exact ⟨hcur, le_refl _⟩
      · have hmne : m ≠ 0 := Nat.pos_iff_ne_zero.mp hm
        have hge : ls.min_step_size ≤ cur * ls.step_reduction_factor := by
          by_contra hlt
          exact hcond ⟨lt_of_not_le hlt, hmne⟩
        obtain ⟨ihmem, ihhead, ihchain⟩ :=
          ih (cur * ls.step_reduction_factor) hge
        refine ⟨?_, by simp, ?_⟩
        · intro x hx
          simp only [List.mem_cons] at hx
          rcases hx with rfl | hx
          · exact ⟨hcur, le_refl _⟩
          · obtain ⟨h1, h2⟩ := ihmem x hx
            exact ⟨h1, h2.trans hstep⟩
        · refine List.chain'_cons'.mpr ⟨?_, ihchain⟩
          intro y hy
          rw [ihhead, if_neg hmne] at hy
          cases hy
          exact ⟨hge, hstep, Or.inl rfl⟩

/-! ### C7 — step-size ladder -/

/-- C7 counterexample: with `initial_step_size = min_step_size = 1/2`,
reduction factor `1/2` and two line-search iterations — which satisfies
the claimed precondition `0 < step_reduction_factor < 1` and
`initial_step_size ≥ min_step_size` — the constructor's ladder is
`[1/2, 1/2]`, which is not strictly decreasing. -/
theorem alphas_not_strictly_decreasing_cex :
    0 < cexLineSearch.step_reduction_factor ∧
      cexLineSearch.step_reduction_factor < 1 ∧
      cexLineSearch.min_step_size ≤ cexLineSearch.initial_step_size ∧
      buildAlphas cexLineSearch =
        [cexLineSearch.min_step_size, cexLineSearch.min_step_size] ∧
      ¬ List.Chain' (fun a b => b < a) (buildAlphas cexLineSearch) := by
  refine ⟨by with_unfolding_all decide, by with_unfolding_all decide,
    by with_unfolding_all decide, by with_unfolding_all decide, ?_⟩
  intro h
  have heq : buildAlphas cexLineSearch =
      [cexLineSearch.min_step_size, cexLineSearch.min_step_size] := by
    with_unfolding_all decide
  rw [heq] at h
  exact lt_irrefl _ (List.chain'_cons.mp h).1

/-- C7 (amended): under `0 < step_reduction_factor < 1` and
`0 < min_step_size ≤ initial_step_size`, the ladder built by the
constructor and rebuilt by `setOptions` is non-empty, starts at
`initial_step_size`, keeps every element in
`[min_step_size, initial_step_size]`, and is non-increasing: each element
is the previous one scaled by `step_reduction_factor` (a strict decrease)
except that `min_step_size` itself is appended — possibly equal to its
predecessor — when the scaled value would fall below it. -/
theorem buildAlphas_spec (ls : LineSearchOptions)
    (hf0 : 0 < ls.step_reduction_factor)
    (hf1 : ls.step_reduction_factor < 1)
    (hm0 : 0 < ls.min_step_size)
    (hmi : ls.min_step_size ≤ ls.initial_step_size) :
    (buildAlphas ls ≠ [] ∧
      (buildAlphas ls).head? = some ls.initial_step_size) ∧
    (∀ x ∈ buildAlphas ls,
      ls.min_step_size ≤ x ∧ x ≤ ls.initial_step_size) ∧
    List.Chain' (LadderStep ls) (buildAlphas ls) ∧
    List.Chain' (fun a b => b ≤ a) (buildAlphas ls) ∧
    (∀ (st : CDDPState) (o : CDDPOptions),
      (setOptions st o).alphas_ = buildAlphas o.line_search) ∧
    (∀ (x0 xr : Vec) (h : Nat) (t : ℚ) (sys : Option DynamicalSystem)
      (obj : Option Objective) (o : CDDPOptions),
      (construct x0 xr h t sys obj o).alphas_ = buildAlphas o.line_search) := by
  have hmain : (∀ x ∈ buildAlphas ls,
        ls.min_step_size ≤ x ∧ x ≤ ls.initial_step_size) ∧
      (buildAlphas ls).head? = some ls.initial_step_size ∧
      List.Chain' (LadderStep ls) (buildAlphas ls) := by
    unfold buildAlphas
    cases hn : ls.max_iterations with
    | zero =>
      simp only [alphaLoop, List.isEmpty_nil, if_true]
      refine ⟨?_, by simp, List.chain'_singleton _⟩
      intro x hx
      simp only [List.mem_cons, List.not_mem_nil, or_false] at hx
      rcases hx with rfl
      exact ⟨hmi, le_refl _⟩
    | succ m =>
      obtain ⟨hmem, hhead, hchain⟩ :=
        alphaLoop_props ls hf0 hf1 hm0 (m + 1) ls.initial_step_size hmi
      have hne : (alphaLoop ls.step_reduction_factor ls.min_step_size
          ls.initial_step_size (m + 1)).isEmpty = false := by
        rw [if_neg (Nat.succ_ne_zero m)] at hhead
        cases hl : alphaLoop ls.step_reduction_factor ls.min_step_size
            ls.initial_step_size (m + 1) with
        | nil => rw [hl] at hhead; cases hhead
        | cons a l => simp
      rw [hne]
      simp only [Bool.false_eq_true, if_false]
      rw [if_neg (Nat.succ_ne_zero m)] at hhead
      exact ⟨hmem, hhead, hchain⟩
  refine ⟨⟨?_, hmain.2.1⟩, hmain.1, hmain.2.2, ?_,
    fun st o => rfl, fun x0 xr h t sys obj o => rfl⟩
  · intro hnil
    rw [hnil] at hmain
    cases hmain.2.1
  · exact List.Chain'.imp (fun a b hab => hab.2.1) hmain.2.2

/-- C7 witness: the amended ladder properties at the concrete example
options (`initial_step_size = 1`, `min_step_size = 1/100`,
factor `1/2`, ten iterations). -/
theorem buildAlphas_spec_witness :
    (buildAlphas exOptions.line_search ≠ [] ∧
      (buildAlphas exOptions.line_search).head? =
        some exOptions.line_search.initial_step_size) ∧
    (∀ x ∈ buildAlphas exOptions.line_search,
      exOptions.line_search.min_step_size ≤ x ∧
        x ≤ exOptions.line_search.initial_step_size) :=
  have h := buildAlphas_spec exOptions.line_search
    (by with_unfolding_all decide) (by with_unfolding_all decide)
    (by with_unfolding_all decide) (by with_unfolding_all decide)
  ⟨h.1, h.2.1⟩

/-! ### C8 — setInitialTrajectory installs mismatched trajectories -/

/-- C8: for trajectories whose lengths do not match the horizon,
`setInitialTrajectory` still returns normally (the C++ code only prints a
warning; it has no throw path) and installs `X` and `U` as the current
trajectory. -/
theorem setInitialTrajectory_installs (st : CDDPState) (X U : List Vec)
    (h : X.length ≠ st.horizon_ + 1 ∨ U.length ≠ st.horizon_) :
    (setInitialTrajectory st X U).X_ = X ∧
      (setInitialTrajectory st X U).U_ = U := by
  cases X <;> exact ⟨rfl, rfl⟩

/-- C8 witness: empty trajectories against horizon 2. -/
theorem setInitialTrajectory_installs_witness :
    (setInitialTrajectory exState [] []).X_ = [] ∧
      (setInitialTrajectory exState [] []).U_ = [] :=
  setInitialTrajectory_installs exState [] [] (Or.inl (by decide))

end cddp
